import Mathlib

/-!
Verification of the session-scoped browser-automation orchestrator of the
Exam-autoapply-bot repository, as a shallow embedding in Lean 4.

Embedded components (each definition is translated from the named source):
* `SessionManager` — the session registry of `stagehand-backend/src/sessions.ts`
  (a `Map` from session id to a record holding the Stagehand handle and the
  `createdAt` / `lastActivity` timestamps, with `create`, `get`, `close` and
  the `cleanupStaleSessions` idle sweep).
* `WebSocketManager` — the broadcaster of `stagehand-backend/src/websocket.ts`
  (a `Map` from socket to `{ sessionId, readyState }`, with `broadcast`
  delivering to the clients bound to a session that are currently open).
* the prompt builders and `normalizeFieldLabel` of
  `stagehand-backend/src/prompts.ts`.
* the `POST /fill-form` handler of `stagehand-backend/src/routes/api.ts`.
* the per-connection OTP / workflow state machine of the WebSocket server
  (`otpResolver`, `workflowRunning`) and the `isRunning` guard of
  `Submit-Student-Admission-Form/server.ts`.

JavaScript `Map` objects are modelled as association lists with unique-key
`set` / `delete` / `get` semantics; timestamps (`Date.getTime()`) are `Int`
milliseconds; the opaque Stagehand automation capability (`stagehand.act`)
is a parameter `act : String → Except String Unit`, and a fallible teardown
(`stagehand.close()`) is a parameter of type `Except String Unit`.
-/

/-! ### Association-list model of a JavaScript `Map` -/

/-- `Map.get`: the value stored under key `a`, if any. -/
def alLookup {α β : Type} [DecidableEq α] : List (α × β) → α → Option β
  | [], _ => none
  | (k, v) :: rest, a => if k = a then some v else alLookup rest a

/-- `Map.set`: replace the entry under the key if present, else append. -/
def alSet {α β : Type} [DecidableEq α] : List (α × β) → α → β → List (α × β)
  | [], a, b => [(a, b)]
  | (k, v) :: rest, a, b => if k = a then (a, b) :: rest else (k, v) :: alSet rest a b

/-- `Map.delete`: remove the entry stored under the key. -/
def alDelete {α β : Type} [DecidableEq α] : List (α × β) → α → List (α × β)
  | [], _ => []
  | (k, v) :: rest, a => if k = a then alDelete rest a else (k, v) :: alDelete rest a

theorem alLookup_alDelete {α β : Type} [DecidableEq α] (m : List (α × β)) (a : α) :
    alLookup (alDelete m a) a = none := by
  induction m with
  | nil => rfl
  | cons p rest ih =>
    obtain ⟨k, v⟩ := p
    by_cases h : k = a
    · simp [alDelete, h, ih]
    · simp [alDelete, alLookup, h, ih]

theorem alLookup_alSet {α β : Type} [DecidableEq α] (m : List (α × β)) (a : α) (b : β) :
    alLookup (alSet m a b) a = some b := by
  induction m with
  | nil => simp [alSet, alLookup]
  | cons p rest ih =>
    obtain ⟨k, v⟩ := p
    by_cases h : k = a
    · simp [alSet, alLookup, h]
    · simp [alSet, alLookup, h, ih]

theorem mem_alDelete_imp {α β : Type} [DecidableEq α] (m : List (α × β)) (a : α)
    (p : α × β) : p ∈ alDelete m a → p ∈ m ∧ p.1 ≠ a := by
  induction m with
  | nil => intro h; simp [alDelete] at h
  | cons q rest ih =>
    obtain ⟨k, v⟩ := q
    by_cases h : k = a
    · intro hm
      simp only [alDelete, if_pos h] at hm
      exact ⟨List.mem_cons_of_mem _ (ih hm).1, (ih hm).2⟩
    · intro hm
      simp only [alDelete, if_neg h] at hm
      rcases List.mem_cons.mp hm with heq | htl
      · subst heq; exact ⟨List.mem_cons_self _ _, h⟩
      · exact ⟨List.mem_cons_of_mem _ (ih htl).1, (ih htl).2⟩

/-! ### Session Registry — `stagehand-backend/src/sessions.ts` -/

/-- One registry entry: `{ stagehand, createdAt, lastActivity }`.  The opaque
Stagehand handle is identified by a number; timestamps are `Date.getTime()`
milliseconds. -/
structure Session where
  stagehand : Nat
  createdAt : Int
  lastActivity : Int
deriving DecidableEq

/-- The `SessionManager`'s private `sessions` map. -/
abbrev SMap := List (String × Session)

namespace SessionManager

/-- `const maxAge = 30 * 60 * 1000` of `cleanupStaleSessions` (30 minutes). -/
def maxAge : Int := 30 * 60 * 1000

/-- `close(sessionId)`: if the session is present, attempt
`session.stagehand.close()` — whose outcome is the parameter `tear`, and whose
failure is caught and logged (returned as the second component) — then
`sessions.delete(sessionId)`.  Unknown ids fall through silently. -/
def close (tear : Except String Unit) (m : SMap) (id : String) : SMap × Option String :=
  if (alLookup m id).isSome then
    (alDelete m id, match tear with | .ok _ => none | .error e => some e)
  else
    (m, none)

/-- `create(sessionId)`: close any existing session under the id, then launch
a fresh Stagehand instance (`initOk` is whether `stagehand.init()` succeeds;
on failure the error propagates and nothing is registered) and store it with
fresh `createdAt` / `lastActivity` timestamps `t`.  `h` is the fresh handle. -/
def create (tear : Except String Unit) (initOk : Bool) (m : SMap) (id : String)
    (h : Nat) (t : Int) : Except String SMap :=
  let m1 := if (alLookup m id).isSome then (close tear m id).1 else m
  if initOk then
    .ok (alSet m1 id { stagehand := h, createdAt := t, lastActivity := t })
  else
    .error "InitializationError"

/-- `get(sessionId)`: return the handle and refresh `lastActivity` to `now`;
absent ids return `undefined` and leave the map unchanged. -/
def get (m : SMap) (id : String) (now : Int) : Option Nat × SMap :=
  match alLookup m id with
  | some s => (some s.stagehand, alSet m id { s with lastActivity := now })
  | none => (none, m)

/-- `cleanupStaleSessions()`: for each entry, close it when
`now - lastActivity > maxAge` (the teardown failure, if any, is absorbed by
`close`, so only the registry content matters here). -/
def cleanupStaleSessions (now : Int) : SMap → SMap
  | [] => []
  | (id, s) :: rest =>
    if now - s.lastActivity > maxAge then cleanupStaleSessions now rest
    else (id, s) :: cleanupStaleSessions now rest

end SessionManager

/-- C5: For every session id, performing `create(id)` and then immediately
`close(id)` leaves the registry with no entry for that id, and a subsequent
`get(id)` returns absent. -/
theorem create_then_close_get_absent (tear tear2 : Except String Unit) (m : SMap)
    (id : String) (h : Nat) (t now : Int) :
    ∃ m2, SessionManager.create tear true m id h t = Except.ok m2 ∧
      alLookup (SessionManager.close tear2 m2 id).1 id = none ∧
      (SessionManager.get (SessionManager.close tear2 m2 id).1 id now).1 = none := by
  refine ⟨_, rfl, ?_, ?_⟩
  · unfold SessionManager.close
    rw [alLookup_alSet]
    simp [alLookup_alDelete]
  · unfold SessionManager.close
    rw [alLookup_alSet]
    simp only [Option.isSome_some, if_pos]
    unfold SessionManager.get
    rw [alLookup_alDelete]

theorem close_of_lookup_none (tear : Except String Unit) (m : SMap) (id : String)
    (hnone : alLookup m id = none) : SessionManager.close tear m id = (m, none) := by
  unfold SessionManager.close
  rw [hnone]
  rfl

theorem alLookup_close_fst (tear : Except String Unit) (m : SMap) (id : String) :
    alLookup (SessionManager.close tear m id).1 id = none := by
  unfold SessionManager.close
  by_cases hs : (alLookup m id).isSome
  · simp [hs, alLookup_alDelete]
  · simp only [hs, if_false, if_neg]
    rw [Option.not_isSome_iff_eq_none] at hs
    exact hs

/-- C6: `close(id)` is idempotent: on an unknown (or already-closed) id it is
a no-op that raises no error; and whenever it runs on a live session the entry
is removed from the registry map for every outcome `tear` of the underlying
teardown — including a throwing one — so a second `close` is again a no-op. -/
theorem close_idempotent_and_removes_despite_teardown_failure
    (tear tear2 : Except String Unit) (m : SMap) (id : String) :
    (alLookup m id = none → SessionManager.close tear m id = (m, none)) ∧
    alLookup (SessionManager.close tear m id).1 id = none ∧
    SessionManager.close tear2 (SessionManager.close tear m id).1 id
      = ((SessionManager.close tear m id).1, none) := by
  refine ⟨close_of_lookup_none tear m id, alLookup_close_fst tear m id, ?_⟩
  exact close_of_lookup_none tear2 _ id (alLookup_close_fst tear m id)

/-- Witness for C6 at concrete inputs: the empty registry (unknown id) and a
one-session registry closed with a throwing teardown. -/
theorem close_idempotent_witness :
    SessionManager.close (Except.error "boom") ([] : SMap) "s1" = ([], none) ∧
    alLookup (SessionManager.close (Except.error "boom")
      [("s1", ⟨7, 0, 0⟩)] "s1").1 "s1" = none := by
  exact ⟨(close_idempotent_and_removes_despite_teardown_failure
            (Except.error "boom") (Except.ok ()) ([] : SMap) "s1").1 rfl,
         (close_idempotent_and_removes_despite_teardown_failure
            (Except.error "boom") (Except.ok ()) [("s1", ⟨7, 0, 0⟩)] "s1").2.1⟩

/-- C7: The idle sweep keeps exactly the sessions whose time since last
activity is within the threshold: an entry survives `cleanupStaleSessions`
iff it was in the registry and `now - lastActivity ≤ maxAge`.  The condition
never mentions `createdAt`, so a recently-active session is kept no matter
how old its creation time is, and an idle one is closed. -/
theorem cleanup_closes_exactly_idle_sessions (now : Int) (m : SMap)
    (id : String) (s : Session) :
    (id, s) ∈ SessionManager.cleanupStaleSessions now m ↔
      ((id, s) ∈ m ∧ now - s.lastActivity ≤ SessionManager.maxAge) := by
  induction m with
  | nil => simp [SessionManager.cleanupStaleSessions]
  | cons p rest ih =>
    obtain ⟨pid, ps⟩ := p
    by_cases hc : now - ps.lastActivity > SessionManager.maxAge
    · simp only [SessionManager.cleanupStaleSessions, if_pos hc, List.mem_cons, ih]
      constructor
      · rintro ⟨hm, hle⟩
        exact ⟨Or.inr hm, hle⟩
      · rintro ⟨hm | hm, hle⟩
        · rw [Prod.mk.injEq] at hm
          rw [hm.2] at hle
          omega
        · exact ⟨hm, hle⟩
    · simp only [SessionManager.cleanupStaleSessions, if_neg hc, List.mem_cons, ih]
      constructor
      · rintro (hm | ⟨hm, hle⟩)
        · refine ⟨Or.inl hm, ?_⟩
          rw [Prod.mk.injEq] at hm
          rw [hm.2]
          omega
        · exact ⟨Or.inr hm, hle⟩
      · rintro ⟨hm | hm, hle⟩
        · exact Or.inl hm
        · exact Or.inr ⟨hm, hle⟩

/-- Witness for C7 at a concrete registry: with `now = 3 000 000`, a session
created at time 0 but active at `now` survives the sweep, while one idle
since time 0 (idle 3 000 000 ms > 1 800 000 ms) is swept. -/
theorem cleanup_witness :
    ("old", ⟨1, 0, 3000000⟩) ∈
      SessionManager.cleanupStaleSessions 3000000
        [("old", ⟨1, 0, 3000000⟩), ("idle", ⟨2, 0, 0⟩)] ∧
    ¬ ("idle", ⟨2, 0, 0⟩) ∈
      SessionManager.cleanupStaleSessions 3000000
        [("old", ⟨1, 0, 3000000⟩), ("idle", ⟨2, 0, 0⟩)] := by
  constructor
  · exact (cleanup_closes_exactly_idle_sessions 3000000
      [("old", ⟨1, 0, 3000000⟩), ("idle", ⟨2, 0, 0⟩)] "old" ⟨1, 0, 3000000⟩).mpr
      ⟨by simp, by decide⟩
  · intro hmem
    have := (cleanup_closes_exactly_idle_sessions 3000000
      [("old", ⟨1, 0, 3000000⟩), ("idle", ⟨2, 0, 0⟩)] "idle" ⟨2, 0, 0⟩).mp hmem
    have h2 := this.2
    revert h2
    decide

/-! ### Event Broadcaster — `stagehand-backend/src/websocket.ts` -/

/-- One entry of the `WebSocketManager`'s `clients` map: the session the
client subscribed to (`null` until a `subscribe` message arrives) and whether
`ws.readyState === WebSocket.OPEN`. -/
structure ClientInfo where
  sessionId : Option String
  wsOpen : Bool
deriving DecidableEq

/-- The `clients` map, keyed by the socket's identity. -/
abbrev Clients := List (Nat × ClientInfo)

namespace WebSocketManager

/-- The `connection` handler: `clients.set(ws, { ws, sessionId: null })`. -/
def connect (cs : Clients) (ws : Nat) : Clients :=
  alSet cs ws { sessionId := none, wsOpen := true }

/-- The `message` handler for `{type: "subscribe", sessionId}`: look the
client up and overwrite its `sessionId` binding in place. -/
def subscribeMsg (cs : Clients) (ws : Nat) (sid : String) : Clients :=
  cs.map fun p => if p.1 = ws then (p.1, { p.2 with sessionId := some sid }) else p

/-- The `close` / `error` handlers: `clients.delete(ws)`. -/
def disconnect (cs : Clients) (ws : Nat) : Clients :=
  alDelete cs ws

/-- `broadcast(sessionId, data)`: the loop sends the message to every client
with `client.sessionId === sessionId && client.ws.readyState === OPEN`.  This
returns the entries the message is sent to. -/
def broadcastRecipients (cs : Clients) (sid : String) : Clients :=
  cs.filter fun p => decide (p.2.sessionId = some sid) && p.2.wsOpen

end WebSocketManager

/-- C3: A publish for session `sid` is delivered exactly to the clients that
are currently bound to `sid` and currently open: an entry receives the event
iff it is in the client map, bound to `sid`, and open.  Consequently a client
bound to a different session, an unbound client, and a client removed by the
disconnect handler all receive nothing. -/
theorem broadcast_exactly_bound_open_observers (cs : Clients) (sid : String)
    (p : Nat × ClientInfo) :
    (p ∈ WebSocketManager.broadcastRecipients cs sid ↔
      (p ∈ cs ∧ p.2.sessionId = some sid ∧ p.2.wsOpen = true)) ∧
    (∀ a, p.2.sessionId = some a → a ≠ sid →
      p ∉ WebSocketManager.broadcastRecipients cs sid) ∧
    (p.2.sessionId = none → p ∉ WebSocketManager.broadcastRecipients cs sid) ∧
    (∀ q ∈ WebSocketManager.broadcastRecipients
        (WebSocketManager.disconnect cs p.1) sid, q.1 ≠ p.1) := by
  have hmem : p ∈ WebSocketManager.broadcastRecipients cs sid ↔
      (p ∈ cs ∧ p.2.sessionId = some sid ∧ p.2.wsOpen = true) := by
    unfold WebSocketManager.broadcastRecipients
    rw [List.mem_filter]
    simp [Bool.and_eq_true, decide_eq_true_iff, and_assoc]
  refine ⟨hmem, ?_, ?_, ?_⟩
  · intro a ha hne hp
    have := (hmem.mp hp).2.1
    rw [ha] at this
    exact hne (Option.some.injEq _ _ ▸ this)
  · intro hnone hp
    have := (hmem.mp hp).2.1
    rw [hnone] at this
    exact Option.noConfusion this
  · intro q hq
    unfold WebSocketManager.broadcastRecipients at hq
    have hq' := (List.mem_filter.mp hq).1
    exact (mem_alDelete_imp cs p.1 q hq').2

/-- Witness for C3 at a concrete client map: with one open client bound to
`"A"`, one bound to `"B"`, and one unbound, a publish for `"B"` reaches the
`"B"` client and not the `"A"` one. -/
theorem broadcast_isolation_witness :
    (((1 : Nat), ClientInfo.mk (some "B") true) ∈
      WebSocketManager.broadcastRecipients
        [(0, ClientInfo.mk (some "A") true), (1, ClientInfo.mk (some "B") true),
         (2, ClientInfo.mk none true)] "B") ∧
    (((0 : Nat), ClientInfo.mk (some "A") true) ∉
      WebSocketManager.broadcastRecipients
        [(0, ClientInfo.mk (some "A") true), (1, ClientInfo.mk (some "B") true),
         (2, ClientInfo.mk none true)] "B") := by
  constructor
  · exact (broadcast_exactly_bound_open_observers
      [(0, ClientInfo.mk (some "A") true), (1, ClientInfo.mk (some "B") true),
       (2, ClientInfo.mk none true)] "B" (1, ClientInfo.mk (some "B") true)).1.mpr
      ⟨by simp, rfl, rfl⟩
  · exact (broadcast_exactly_bound_open_observers
      [(0, ClientInfo.mk (some "A") true), (1, ClientInfo.mk (some "B") true),
       (2, ClientInfo.mk none true)] "B" (0, ClientInfo.mk (some "A") true)).2.1
      "A" rfl (by decide)

/-! ### Prompt builders — `stagehand-backend/src/prompts.ts` -/

/-- `String.prototype.toLowerCase` restricted to the ASCII range the source
data uses. -/
def lowerChars (l : List Char) : List Char :=
  l.map Char.toLower

/-- `.replace(/([A-Z])/g, ' $1')`: insert a space before every capital. -/
def insertSpaceBeforeUpper : List Char → List Char
  | [] => []
  | c :: cs =>
    if c.isUpper then ' ' :: c :: insertSpaceBeforeUpper cs
    else c :: insertSpaceBeforeUpper cs

/-- `.replace(/_/g, ' ')`. -/
def underscoreToSpace (l : List Char) : List Char :=
  l.map fun c => if c = '_' then ' ' else c

/-- `String.prototype.trim`. -/
def trimChars (l : List Char) : List Char :=
  (((l.dropWhile Char.isWhitespace).reverse).dropWhile Char.isWhitespace).reverse

/-- The generic humanization of `normalizeFieldLabel`'s fallback:
`fieldKey.replace(/([A-Z])/g, ' $1').replace(/_/g, ' ').trim().toLowerCase()`. -/
def humanizeKey (s : String) : String :=
  String.mk (lowerChars (trimChars (underscoreToSpace (insertSpaceBeforeUpper s.data))))

/-- The static `mappings` table of `normalizeFieldLabel`. -/
def mappings : List (String × String) :=
  [("name", "full name"),
   ("fullName", "full name"),
   ("full_name", "full name"),
   ("firstName", "first name"),
   ("first_name", "first name"),
   ("lastName", "last name"),
   ("last_name", "last name"),
   ("email", "email address"),
   ("emailAddress", "email address"),
   ("email_address", "email address"),
   ("confirmEmail", "confirm email address"),
   ("confirm_email", "confirm email address"),
   ("emailConfirm", "confirm email address"),
   ("reenterEmail", "re-enter email address"),
   ("phone", "phone number"),
   ("mobile", "mobile number"),
   ("mobileNumber", "mobile number"),
   ("mobile_number", "mobile number"),
   ("phoneNumber", "phone number"),
   ("phone_number", "phone number"),
   ("confirmPhone", "confirm phone number"),
   ("confirm_phone", "confirm phone number"),
   ("address", "address"),
   ("city", "city"),
   ("state", "state"),
   ("pincode", "pincode"),
   ("zipcode", "zip code"),
   ("zip", "zip code"),
   ("country", "country"),
   ("dob", "date of birth"),
   ("dateOfBirth", "date of birth"),
   ("date_of_birth", "date of birth"),
   ("gender", "gender"),
   ("nationality", "nationality"),
   ("qualification", "qualification"),
   ("education", "education"),
   ("degree", "degree"),
   ("college", "college name"),
   ("university", "university name"),
   ("passingYear", "passing year"),
   ("passing_year", "passing year"),
   ("percentage", "percentage"),
   ("cgpa", "CGPA"),
   ("aadhar", "Aadhar number"),
   ("aadharNumber", "Aadhar number"),
   ("pan", "PAN number"),
   ("panNumber", "PAN number"),
   ("passport", "passport number"),
   ("examCenter", "exam center"),
   ("exam_center", "exam center"),
   ("category", "category"),
   ("subcategory", "subcategory")]

/-- `normalizeFieldLabel(fieldKey)`:
`mappings[fieldKey] || fieldKey.replace(...).replace(...).trim().toLowerCase()`. -/
def normalizeFieldLabel (fieldKey : String) : String :=
  (alLookup mappings fieldKey).getD (humanizeKey fieldKey)

/-- Modelled from the spec's words for comparison with `humanizeKey`: the
generic humanization replaces camelCase boundaries and underscores by spaces
in one pass, then trims, then lower-cases. -/
def specSpacing : List Char → List Char
  | [] => []
  | c :: cs =>
    if c.isUpper then ' ' :: c :: specSpacing cs
    else if c = '_' then ' ' :: specSpacing cs
    else c :: specSpacing cs

/-- The spec-worded generic humanization of a field key. -/
def specHumanize (s : String) : String :=
  String.mk (lowerChars (trimChars (specSpacing s.data)))

theorem specSpacing_eq (l : List Char) :
    specSpacing l = underscoreToSpace (insertSpaceBeforeUpper l) := by
  induction l with
  | nil => rfl
  | cons c cs ih =>
    by_cases hu : c.isUpper
    · have hne : c ≠ '_' := by
        intro hc
        rw [hc] at hu
        exact absurd hu (by decide)
      simp [specSpacing, insertSpaceBeforeUpper, underscoreToSpace, hu, hne, ih]
    · by_cases h_ : c = '_'
      · simp [specSpacing, insertSpaceBeforeUpper, underscoreToSpace, hu, h_, ih]
      · simp [specSpacing, insertSpaceBeforeUpper, underscoreToSpace, hu, h_, ih]

/-- C8: For a field with no explicit label, the resolved label is the static
mapping table's entry when the key is in the table (in particular
`mobileNumber ↦ "mobile number"`), and for every key not in the table it is
the generic humanization (camelCase boundaries and underscores replaced by
spaces, trimmed, lower-cased, as stated by the spec-worded `specHumanize`). -/
theorem normalizeFieldLabel_table_and_humanization :
    normalizeFieldLabel "mobileNumber" = "mobile number" ∧
    (∀ k v, alLookup mappings k = some v → normalizeFieldLabel k = v) ∧
    (∀ k, alLookup mappings k = none → normalizeFieldLabel k = specHumanize k) := by
  refine ⟨rfl, ?_, ?_⟩
  · intro k v hk
    unfold normalizeFieldLabel
    rw [hk]
    rfl
  · intro k hk
    unfold normalizeFieldLabel
    rw [hk]
    unfold humanizeKey specHumanize
    rw [specSpacing_eq]
    rfl

/-- Witness for C8 at concrete keys: `"mobile"` is in the table; the key
`"guardianMobileNumber"` is not and humanizes to `"guardian mobile number"`. -/
theorem normalizeFieldLabel_witness :
    normalizeFieldLabel "mobile" = "mobile number" ∧
    normalizeFieldLabel "guardianMobileNumber" = specHumanize "guardianMobileNumber" ∧
    normalizeFieldLabel "guardianMobileNumber" = "guardian mobile number" := by
  refine ⟨normalizeFieldLabel_table_and_humanization.2.1 "mobile" "mobile number" rfl,
          normalizeFieldLabel_table_and_humanization.2.2 "guardianMobileNumber" rfl,
          ?_⟩
  decide

/-- `String.prototype.includes(pat)` on character lists. -/
def listContains (pat : List Char) : List Char → Bool
  | [] => pat.isEmpty
  | c :: rest => pat.isPrefixOf (c :: rest) || listContains pat rest

/-- `s.includes(pat)`. -/
def strContains (s pat : String) : Bool :=
  listContains pat.data s.data

/-- `s.toLowerCase()`. -/
def toLowerStr (s : String) : String :=
  String.mk (lowerChars s.data)

/-- `value.replace(/"/g, '\\"')`: escape every double quote. -/
def sanitizeChars : List Char → List Char
  | [] => []
  | c :: cs => if c = '"' then '\\' :: '"' :: sanitizeChars cs else c :: sanitizeChars cs

/-- The sanitized value of `buildFillPrompt`. -/
def sanitizeValue (v : String) : String :=
  String.mk (sanitizeChars v.data)

/-- JavaScript `s.replace(pat, repl)` with a string pattern: replace the
first occurrence only. -/
def replaceFirstList (pat repl : List Char) : List Char → List Char
  | [] => []
  | c :: rest =>
    if pat.isPrefixOf (c :: rest) then repl ++ (c :: rest).drop pat.length
    else c :: replaceFirstList pat repl rest

/-- `s.replace(pat, repl)` on strings (first occurrence). -/
def replaceFirst (s pat repl : String) : String :=
  String.mk (replaceFirstList pat.data repl.data s.data)

/-- `buildFillPrompt(fieldLabel, value)`: the confirmation branch fires when
the lower-cased label includes `confirm`, `re-enter` or `retype`. -/
def buildFillPrompt (fieldLabel value : String) : String :=
  let sanitizedValue := sanitizeValue value
  let labelLower := toLowerStr fieldLabel
  if strContains labelLower "confirm" || strContains labelLower "re-enter"
      || strContains labelLower "retype" then
    "Find the SECOND input field that asks to confirm or re-enter the value. Look for fields labeled \"confirm "
      ++ replaceFirst labelLower "confirm " ""
      ++ "\", \"re-enter\", \"retype\", or a second field after the primary one. Type \""
      ++ sanitizedValue
      ++ "\" into this confirmation field. Clear any existing text first."
  else
    "Find the input field labeled \"" ++ fieldLabel
      ++ "\" or with placeholder containing \"" ++ fieldLabel
      ++ "\" and type \"" ++ sanitizedValue
      ++ "\" into it. If it\x27s a dropdown/select, choose the option \"" ++ sanitizedValue
      ++ "\". If the field already has text, clear it first before typing."

/-- `buildSelectPrompt(fieldLabel, optionValue)`. -/
def buildSelectPrompt (fieldLabel optionValue : String) : String :=
  "Find the dropdown/select field labeled \"" ++ fieldLabel
    ++ "\" and select the option \"" ++ optionValue
    ++ "\". Click the dropdown first to open it, then click the matching option."

/-- `buildCheckboxPrompt(checkboxLabel)`: declaration/agreement checkboxes
(keywords `hereby`, `declare`, `agree`, `terms`) get the distinct phrasing. -/
def buildCheckboxPrompt (checkboxLabel : String) : String :=
  let labelLower := toLowerStr checkboxLabel
  if strContains labelLower "hereby" || strContains labelLower "declare"
      || strContains labelLower "agree" || strContains labelLower "terms" then
    "Find and click the unchecked checkbox next to the declaration or agreement text that contains \""
      ++ String.mk (checkboxLabel.data.take 50)
      ++ "...\". This is usually at the top or bottom of the form. Look for a checkbox input element or a clickable square/box. Click it to check/select it."
  else
    "Find and click the checkbox associated with \"" ++ checkboxLabel
      ++ "\". This might be a checkbox input, a clickable label, or a custom checkbox element. Make sure it becomes checked/selected after clicking."

/-! ### `POST /fill-form` — `stagehand-backend/src/routes/api.ts` -/

/-- `type` of a form field in `FillFormRequestSchema`. -/
inductive FieldType where
  | text
  | select
  | checkbox
  | date
deriving DecidableEq

/-- One element of `fields` in the `/fill-form` body:
`{key, label?, value, type?}`. -/
structure FormField where
  key : String
  label : Option String
  value : String
  ftype : Option FieldType
deriving DecidableEq

/-- `field.label || normalizeFieldLabel(field.key)` — JavaScript `||`, so an
empty-string label also falls back to the normalized key. -/
def resolvedLabel (f : FormField) : String :=
  match f.label with
  | some l => if l = "" then normalizeFieldLabel f.key else l
  | none => normalizeFieldLabel f.key

/-- The prompt-dispatch of the `/fill-form` loop: `select` fields go to
`buildSelectPrompt`, `checkbox` fields to `buildCheckboxPrompt`, everything
else (text, date, unspecified) to `buildFillPrompt`. -/
def promptFor (f : FormField) : String :=
  match f.ftype with
  | some FieldType.select => buildSelectPrompt (resolvedLabel f) f.value
  | some FieldType.checkbox => buildCheckboxPrompt (resolvedLabel f)
  | _ => buildFillPrompt (resolvedLabel f) f.value

/-- An instruction phrased against the second occurrence of the base field:
it opens with the confirmation branch's distinctive text. -/
def targetsSecondOccurrence (s : String) : Bool :=
  "Find the SECOND input field".data.isPrefixOf s.data

theorem isPrefixOf_append_left (p : List Char) :
    ∀ a b : List Char, p.isPrefixOf a = true → p.isPrefixOf (a ++ b) = true := by
  intro a b h
  rw [List.isPrefixOf_iff_prefix] at h ⊢
  exact h.trans (List.prefix_append a b)

theorem string_data_append (s t : String) : (s ++ t).data = s.data ++ t.data := by
  cases s
  cases t
  rfl

theorem buildFillPrompt_confirm (L v : String)
    (h : (strContains (toLowerStr L) "confirm" || strContains (toLowerStr L) "re-enter"
        || strContains (toLowerStr L) "retype") = true) :
    targetsSecondOccurrence (buildFillPrompt L v) = true := by
  unfold buildFillPrompt
  simp only [h, if_true]
  unfold targetsSecondOccurrence
  simp only [string_data_append]
  apply isPrefixOf_append_left
  apply isPrefixOf_append_left
  apply isPrefixOf_append_left
  apply isPrefixOf_append_left
  decide

/-- The C9 counterexample field: its key resolves to the label
`"confirm email address"`, which matches the confirmation pattern, but its
declared type is `select`. -/
def confirmSelectField : FormField :=
  { key := "confirmEmail", label := none, value := "x", ftype := some FieldType.select }

/-- C9 counterexample: a `select`-typed field whose resolved label contains
`confirm` is dispatched to `buildSelectPrompt`, whose instruction does not
target the second occurrence — so the claim fails as stated for this field. -/
theorem confirm_select_field_not_second_occurrence :
    strContains (toLowerStr (resolvedLabel confirmSelectField)) "confirm" = true ∧
    targetsSecondOccurrence (promptFor confirmSelectField) = false := by
  decide

/-- C9 (amended): for every field dispatched to the text-fill prompt builder
(type neither `select` nor `checkbox`) whose resolved label matches the
confirmation pattern (`confirm` / `re-enter` / `retype`, checked on the
lower-cased label), the constructed instruction targets the second occurrence
of the base field. -/
theorem confirm_text_field_targets_second_occurrence (f : FormField)
    (h1 : f.ftype ≠ some FieldType.select) (h2 : f.ftype ≠ some FieldType.checkbox)
    (h3 : (strContains (toLowerStr (resolvedLabel f)) "confirm"
        || strContains (toLowerStr (resolvedLabel f)) "re-enter"
        || strContains (toLowerStr (resolvedLabel f)) "retype") = true) :
    targetsSecondOccurrence (promptFor f) = true := by
  obtain ⟨k, lab, v, ft⟩ := f
  cases ft with
  | none => exact buildFillPrompt_confirm _ _ h3
  | some t =>
    cases t with
    | select => exact absurd rfl h1
    | checkbox => exact absurd rfl h2
    | text => exact buildFillPrompt_confirm _ _ h3
    | date => exact buildFillPrompt_confirm _ _ h3

/-- The concrete field for the C9 witness: a text field whose key resolves to
`"confirm phone number"`. -/
def confirmTextField : FormField :=
  { key := "confirmPhone", label := none, value := "9999999999", ftype := some FieldType.text }

/-- Witness for C9 (amended) at `confirmTextField`. -/
theorem confirm_text_field_witness :
    targetsSecondOccurrence (promptFor confirmTextField) = true :=
  confirm_text_field_targets_second_occurrence confirmTextField
    (by decide) (by decide) (by decide)

/-- One element of the `/fill-form` response's `results` array:
`{key, success, error?}`. -/
structure FieldResult where
  key : String
  success : Bool
  error : Option String
deriving DecidableEq

/-- Levels of `wsManager.broadcastLog`. -/
inductive LogLevel where
  | info
  | success
  | warning
  | error
deriving DecidableEq

/-- A `log` event broadcast for the session. -/
structure LogEvent where
  message : String
  level : LogLevel
deriving DecidableEq

/-- Whether `stagehand.act` fails on the prompt built for the field. -/
def actFails (act : String → Except String Unit) (f : FormField) : Bool :=
  match act (promptFor f) with
  | .ok _ => false
  | .error _ => true

/-- The `for (const field of fields)` loop of `/fill-form`: per field, emit
the `Filling: <label>` log, build the prompt, run `stagehand.act` (outcome
given by `act`), and record `{key, success}` on success or
`{key, success: false, error}` on a caught failure; the loop then moves to
the next field either way.  (The per-field screenshot broadcast and the
300 ms settle delay have no effect on the report or logs and are omitted.)
Returns the `results` array and the emitted log events, in order. -/
def fillFieldsLoop (act : String → Except String Unit) :
    List FormField → List FieldResult × List LogEvent
  | [] => ([], [])
  | f :: rest =>
    let r : FieldResult :=
      match act (promptFor f) with
      | .ok _ => { key := f.key, success := true, error := none }
      | .error e => { key := f.key, success := false, error := some e }
    let next := fillFieldsLoop act rest
    (r :: next.1,
      { message := "Filling: " ++ resolvedLabel f, level := LogLevel.info } :: next.2)

/-- The shape of the `/fill-form` HTTP response. -/
structure FillFormResponse where
  status : Nat
  success : Bool
  error : Option String
  results : Option (List FieldResult)
deriving DecidableEq

/-- The `POST /fill-form` handler: schema failure → 500 `{success:false}`;
unknown session → 404 `{success:false}`; otherwise run the loop over every
field, emit the aggregate `Filled <n>/<total> fields` success log, and
respond 200 `{success: true, results}` unconditionally.  `parsedBody` is the
outcome of `FillFormRequestSchema.parse` and `stagehand` the outcome of
`sessionManager.get(sessionId)`. -/
def fillFormHandler (act : String → Except String Unit)
    (parsedBody : Option (String × List FormField)) (stagehand : Option Nat) :
    FillFormResponse × List LogEvent :=
  match parsedBody with
  | none => ({ status := 500, success := false, error := some "ValidationError",
               results := none }, [])
  | some (_sid, fields) =>
    match stagehand with
    | none => ({ status := 404, success := false, error := some "Session not found",
                 results := none }, [])
    | some _ =>
      let out := fillFieldsLoop act fields
      let successCount := (out.1.filter fun r => r.success).length
      ({ status := 200, success := true, error := none, results := some out.1 },
        out.2 ++ [{ message := "Filled " ++ toString successCount ++ "/"
                      ++ toString fields.length ++ " fields",
                    level := LogLevel.success }])

theorem fillFieldsLoop_length (act : String → Except String Unit)
    (fields : List FormField) :
    (fillFieldsLoop act fields).1.length = fields.length := by
  induction fields with
  | nil => rfl
  | cons f rest ih =>
    cases hact : act (promptFor f) <;>
      simp [fillFieldsLoop, hact, ih]

theorem fillFieldsLoop_keys (act : String → Except String Unit)
    (fields : List FormField) :
    (fillFieldsLoop act fields).1.map (fun r => r.key) = fields.map fun f => f.key := by
  induction fields with
  | nil => rfl
  | cons f rest ih =>
    cases hact : act (promptFor f) <;>
      simp [fillFieldsLoop, hact, ih]

theorem fillFieldsLoop_failures (act : String → Except String Unit)
    (fields : List FormField) :
    ((fillFieldsLoop act fields).1.filter fun r => !r.success).length
      = (fields.filter fun f => actFails act f).length := by
  induction fields with
  | nil => rfl
  | cons f rest ih =>
    cases hact : act (promptFor f) <;>
      simp [fillFieldsLoop, actFails, hact, List.filter, ih]

/-- C4: every field of a `fillFields` request on an existing session is
attempted with no early abort — the report has exactly one entry per input
field, in order, keyed like the input — the number of failure entries equals
the number of fields whose `act` call failed, and the handler's log stream
ends with the aggregate success-count event. -/
theorem fillFields_per_field_report (act : String → Except String Unit)
    (sid : String) (fields : List FormField) :
    (fillFieldsLoop act fields).1.length = fields.length ∧
    ((fillFieldsLoop act fields).1.map (fun r => r.key) = fields.map fun f => f.key) ∧
    ((fillFieldsLoop act fields).1.filter fun r => !r.success).length
      = (fields.filter fun f => actFails act f).length ∧
    (fillFormHandler act (some (sid, fields)) (some 0)).2.getLast?
      = some { message := "Filled "
                 ++ toString ((fillFieldsLoop act fields).1.filter fun r => r.success).length
                 ++ "/" ++ toString fields.length ++ " fields",
               level := LogLevel.success } := by
  refine ⟨fillFieldsLoop_length act fields, fillFieldsLoop_keys act fields,
          fillFieldsLoop_failures act fields, ?_⟩
  simp [fillFormHandler]

/-- Witness for C4 at a concrete run: two fields against an `act` that fails
exactly on the second field's prompt — both fields are attempted, the failure
count is 1, and the aggregate log reads `Filled 1/2 fields`. -/
theorem fillFields_report_witness :
    ((fillFieldsLoop
        (fun p => if p = promptFor ⟨"city", none, "Pune", none⟩ then .ok ()
                  else .error "ActionFailure")
        [⟨"city", none, "Pune", none⟩, ⟨"pincode", none, "411001", none⟩]).1.filter
      fun r => !r.success).length
      = ([⟨"city", none, "Pune", none⟩, ⟨"pincode", none, "411001", none⟩].filter
          fun f => actFails
            (fun p => if p = promptFor ⟨"city", none, "Pune", none⟩ then .ok ()
                      else .error "ActionFailure") f).length :=
  (fillFields_per_field_report
    (fun p => if p = promptFor ⟨"city", none, "Pune", none⟩ then .ok ()
              else .error "ActionFailure")
    "s1"
    [⟨"city", none, "Pune", none⟩, ⟨"pincode", none, "411001", none⟩]).2.2.1

/-- C10: every `/fill-form` request that passes schema validation and names
an existing session yields a top-level `success: true` response (status 200,
no top-level error) for every behaviour of the per-field actions; the
per-field failures appear only inside `results`. -/
theorem fill_form_top_level_success_despite_field_failures
    (act : String → Except String Unit) (sid : String) (fields : List FormField)
    (sh : Nat) :
    (fillFormHandler act (some (sid, fields)) (some sh)).1.status = 200 ∧
    (fillFormHandler act (some (sid, fields)) (some sh)).1.success = true ∧
    (fillFormHandler act (some (sid, fields)) (some sh)).1.error = none ∧
    (fillFormHandler act (some (sid, fields)) (some sh)).1.results
      = some (fillFieldsLoop act fields).1 := by
  refine ⟨rfl, rfl, rfl, rfl⟩

/-- Witness for C10: with an `act` that fails on every prompt, the response
is still top-level `success: true` and every failure sits in `results`. -/
theorem fill_form_success_witness :
    (fillFormHandler (fun _ => .error "ActionFailure")
      (some ("s1", [⟨"city", none, "Pune", none⟩])) (some 0)).1.success = true :=
  (fill_form_top_level_success_despite_field_failures
    (fun _ => .error "ActionFailure") "s1" [⟨"city", none, "Pune", none⟩] 0).2.1

/-! ### Workflow WebSocket server — the per-connection `otpResolver` /
`workflowRunning` state of `server.ts` (the `ws` workflow server), and the
`isRunning` guard of `Submit-Student-Admission-Form/server.ts`. -/

/-- How the pending `getOtp` promise, once created, has been settled:
`value` by an `OTP_SUBMIT` message, `cancelled` by a cancellation signal.
`none` in `ConnState.pendingResolution` means still unresolved. -/
inductive OtpResolution where
  | value (otp : String)
  | cancelled
deriving DecidableEq

/-- The per-connection state of the workflow WebSocket server:
`otpResolver` is whether the `otpResolver` variable is non-null (a `getOtp`
promise is pending), `pendingResolution` how that promise was settled (if
ever), `workflowRunning` the concurrency-guard flag, `wsClosed` whether the
socket has closed, `sent` the types of the messages sent so far, and
`startedCount` how many times `runWorkflow` has been started. -/
structure ConnState where
  otpResolver : Bool
  pendingResolution : Option OtpResolution
  workflowRunning : Bool
  wsClosed : Bool
  sent : List String
  startedCount : Nat
deriving DecidableEq

/-- The events the connection handler reacts to: the two message types, the
workflow's own `getOtp` call (which registers the resolver and sends
`REQUEST_OTP`), the workflow finishing, and the socket's `close` event. -/
inductive ConnEvent where
  | msgFormSubmit
  | msgOtpSubmit (otp : String)
  | needOtp
  | workflowDone (ok : Bool)
  | wsCloseEvent
deriving DecidableEq

/-- `send(type)`: `ws.readyState === OPEN && ws.send(...)` — a message goes
out only while the socket is open. -/
def connSend (st : ConnState) (t : String) : ConnState :=
  if st.wsClosed then st else { st with sent := st.sent ++ [t] }

/-- One step of the connection handler, translated clause by clause:
* `FORM_SUBMIT` runs only under `!workflowRunning`; it sets the flag, sends
  the starting `LOG` and invokes `runWorkflow` (counted by `startedCount`).
  With a workflow already running the message matches no clause: nothing is
  sent and nothing is started.
* `getOtp()` (inside the workflow) stores the promise's resolver in
  `otpResolver` and sends `REQUEST_OTP`.
* `OTP_SUBMIT` with a non-null resolver resolves the promise with the
  submitted value, nulls the resolver and sends a `LOG`; otherwise nothing.
* the workflow finishing sends `SUBMISSION_RESULT` and clears
  `workflowRunning` (the `finally` clause).
* the socket's `close` handler only logs: no field of the state other than
  `wsClosed` changes, and in particular the pending promise is not settled. -/
def connStep : ConnEvent → ConnState → ConnState
  | ConnEvent.msgFormSubmit, st =>
    if st.workflowRunning then st
    else connSend { st with workflowRunning := true,
                            startedCount := st.startedCount + 1 } "LOG"
  | ConnEvent.msgOtpSubmit otp, st =>
    if st.otpResolver then
      connSend { st with pendingResolution := some (OtpResolution.value otp),
                         otpResolver := false } "LOG"
    else st
  | ConnEvent.needOtp, st =>
    connSend { st with otpResolver := true, pendingResolution := none } "REQUEST_OTP"
  | ConnEvent.workflowDone _, st =>
    { connSend st "SUBMISSION_RESULT" with workflowRunning := false }
  | ConnEvent.wsCloseEvent, st =>
    { st with wsClosed := true }

/-- C1 (the code at the failing input): closing the socket while a
verification request is pending leaves the pending future unresolved — the
`close` handler changes nothing but `wsClosed`, and no step of the connection
handler ever settles the future with a cancellation outcome, so the suspended
`runWorkflow` task can never unwind. -/
theorem wsClose_leaves_pending_verification_unresolved (st : ConnState)
    (e : ConnEvent)
    (hres : st.otpResolver = true) (hpend : st.pendingResolution = none) :
    (connStep ConnEvent.wsCloseEvent st).pendingResolution = none ∧
    (connStep ConnEvent.wsCloseEvent st).otpResolver = true ∧
    (connStep ConnEvent.wsCloseEvent st).wsClosed = true ∧
    (st.pendingResolution ≠ some OtpResolution.cancelled →
      (connStep e st).pendingResolution ≠ some OtpResolution.cancelled) := by
  refine ⟨hpend, hres, rfl, ?_⟩
  intro hnc
  cases e with
  | msgFormSubmit =>
    by_cases hr : st.workflowRunning
    · simp [connStep, connSend, hr, hnc]
    · by_cases hc : st.wsClosed <;> simp [connStep, connSend, hr, hc, hnc]
  | msgOtpSubmit otp =>
    by_cases ho : st.otpResolver
    · by_cases hc : st.wsClosed <;> simp [connStep, connSend, ho, hc, hnc]
    · simp [connStep, connSend, ho, hnc]
  | needOtp =>
    simp [connStep, connSend]
    by_cases hc : st.wsClosed <;> simp [hc]
  | workflowDone ok =>
    simp [connStep, connSend]
    by_cases hc : st.wsClosed <;> simp [hc, hnc]
  | wsCloseEvent => simp [connStep, hnc]

/-- Witness for C1's theorem: the concrete connection state right after
`REQUEST_OTP` was sent (resolver registered, promise unresolved, workflow
running), hit by the socket-close event. -/
theorem wsClose_pending_witness :
    (connStep ConnEvent.wsCloseEvent
      ⟨true, none, true, false, ["LOG", "REQUEST_OTP"], 1⟩).pendingResolution = none ∧
    (connStep ConnEvent.wsCloseEvent
      ⟨true, none, true, false, ["LOG", "REQUEST_OTP"], 1⟩).wsClosed = true ∧
    (connStep ConnEvent.wsCloseEvent
      ⟨true, none, true, false, ["LOG", "REQUEST_OTP"], 1⟩).pendingResolution
      ≠ some OtpResolution.cancelled := by
  refine ⟨(wsClose_leaves_pending_verification_unresolved
      ⟨true, none, true, false, ["LOG", "REQUEST_OTP"], 1⟩
      ConnEvent.wsCloseEvent rfl rfl).1,
    (wsClose_leaves_pending_verification_unresolved
      ⟨true, none, true, false, ["LOG", "REQUEST_OTP"], 1⟩
      ConnEvent.wsCloseEvent rfl rfl).2.2.1,
    (wsClose_leaves_pending_verification_unresolved
      ⟨true, none, true, false, ["LOG", "REQUEST_OTP"], 1⟩
      ConnEvent.wsCloseEvent rfl rfl).2.2.2 (by decide)⟩

/-- The `/start` response of `Submit-Student-Admission-Form/server.ts`. -/
structure StartResponse where
  status : Nat
  success : Bool
  error : Option String
deriving DecidableEq

/-- The `POST /start` handler: under `isRunning` it answers
`409 {success:false, error:"Workflow already running"}` without touching the
workflow; with a complete body it sets the flag, runs the workflow (success
given by `wfSuccess`) and answers 200/500.  The second component is whether
`runWorkflow` was invoked. -/
def handleStart (isRunning bodyComplete wfSuccess : Bool) : StartResponse × Bool :=
  if isRunning then
    ({ status := 409, success := false, error := some "Workflow already running" }, false)
  else if !bodyComplete then
    ({ status := 400, success := false, error := some "Missing required fields" }, false)
  else if wfSuccess then
    ({ status := 200, success := true, error := none }, true)
  else
    ({ status := 500, success := false, error := none }, true)

/-- C2 counterexample: in the workflow WebSocket server, a second
`FORM_SUBMIT` while `workflowRunning` is true leaves the connection state
completely unchanged — no message of any kind is sent (so no distinct
"already running" error signal is emitted; the request is silently dropped),
and no second workflow is started. -/
theorem second_form_submit_silently_dropped :
    connStep ConnEvent.msgFormSubmit ⟨false, none, true, false, ["LOG"], 1⟩
      = ⟨false, none, true, false, ["LOG"], 1⟩ ∧
    (connStep ConnEvent.msgFormSubmit
      ⟨false, none, true, false, ["LOG"], 1⟩).sent = ["LOG"] ∧
    (connStep ConnEvent.msgFormSubmit
      ⟨false, none, true, false, ["LOG"], 1⟩).startedCount = 1 := by
  decide

/-- C2 (amended): while a workflow is in flight, a second workflow-advancing
request never starts a second automation operation against the session: the
HTTP `/start` endpoint rejects it immediately with the distinct
`409 "Workflow already running"` error and does not invoke the workflow,
while the workflow WebSocket server ignores a concurrent `FORM_SUBMIT`
entirely (state unchanged: nothing queued, nothing sent, nothing started). -/
theorem second_request_rejected_or_ignored (bodyComplete wfSuccess : Bool)
    (st : ConnState) (hrun : st.workflowRunning = true) :
    handleStart true bodyComplete wfSuccess
      = ({ status := 409, success := false,
           error := some "Workflow already running" }, false) ∧
    connStep ConnEvent.msgFormSubmit st = st := by
  refine ⟨rfl, ?_⟩
  simp [connStep, hrun]

/-- Witness for C2 (amended) at a concrete in-flight state. -/
theorem second_request_rejected_witness :
    handleStart true true true
      = ({ status := 409, success := false,
           error := some "Workflow already running" }, false) ∧
    connStep ConnEvent.msgFormSubmit ⟨true, none, true, false, [], 1⟩
      = ⟨true, none, true, false, [], 1⟩ :=
  second_request_rejected_or_ignored true true
    ⟨true, none, true, false, [], 1⟩ rfl
